import Mathlib

/-!
Verification of the resource-lifecycle state machine of simple-cs
(src/main.c): a headless EGL/GLES compute-shader runner.

The C program is straight-line code whose only branching is
assertion-style fail-fast aborts after each external EGL/GL/libc call.
We embed it shallowly: the external world (driver, filesystem) is an
`Env` record giving the result of each external call, every function
returns the ordered trace of external calls and outputs it performed
as a `List Event`, and an `assert` failure is modelled by returning
`none` (the process aborts, executing nothing further).

Handles (pointers, EGLDisplay, EGLContext, GLuint names) are `Nat`
with `0` for `NULL` / `EGL_NO_DISPLAY` / `EGL_NO_CONTEXT`; the file
descriptor from `open` is `Int` (negative on failure).
-/

namespace SimpleCS

/-! ## The embedded program and the vocabulary of its properties -/

/-- One external call or output line performed by the program, with the
arguments it was given at that moment. -/
inductive Event where
  | openDevice
  | gbmCreateDevice (fd : Int)
  | eglGetPlatformDisplay (gbm : Nat)
  | eglInitialize (disp : Nat)
  | eglQueryString (disp : Nat)
  | eglChooseConfig (disp : Nat)
  | eglBindAPI
  | eglCreateContext (disp : Nat) (config : Option Nat)
  | eglMakeCurrent (disp : Nat) (ctx : Nat)
  | eglDestroyContext (disp : Nat) (ctx : Nat)
  | eglTerminate (disp : Nat)
  | gbmDeviceDestroy (gbm : Nat)
  | printEglVersion (major : Int) (minor : Int)
  | printEglExtensions (s : String)
  | printGlVendor (s : String)
  | printGlRenderer (s : String)
  | printGlVersion (s : String)
  | printGlShadingLang (s : String)
  | printGlExtensions (s : String)
  | fopen (filename : String)
  | printShaderSource (s : String)
  | glCreateShader
  | glShaderSource (sid : Nat) (src : String)
  | glCompileShader (sid : Nat)
  | glGetInfoLogLength (sid : Nat)
  | glGetShaderInfoLog (sid : Nat)
  | printCompileError (filename : String) (log : String)
  | glCreateProgram
  | glAttachShader (pid : Nat) (sid : Nat)
  | glLinkProgram (pid : Nat)
  | glDeleteShader (sid : Nat)
  | glUseProgram (pid : Nat)
  | glDispatchCompute (x : Nat) (y : Nat) (z : Nat)
  | glDeleteProgram (pid : Nat)
  deriving DecidableEq, Repr

/-- The external world: the value each EGL/GL/libc call would return in
this run.  Boolean `.._err` fields model whether `glGetError()` reports
an error immediately after the corresponding GL call; `link_status` is
the driver's `GL_LINK_STATUS` (queryable state, whether or not the
program ever queries it). -/
structure Env where
  open_fd : Int
  gbm_dev : Nat
  egl_disp : Nat
  egl_init_ok : Bool
  egl_major : Int
  egl_minor : Int
  egl_exts : String
  choose_config_ok : Bool
  config_count : Int
  config_val : Nat
  bind_api_ok : Bool
  egl_ctx : Nat
  make_current_ok : Bool
  gl_vendor : String
  gl_renderer : String
  gl_version : String
  gl_shading_lang : String
  gl_exts : String
  file_content : Option String
  shader_id : Nat
  create_shader_err : Bool
  shader_source_err : Bool
  compile_err : Bool
  compile_status : Bool
  info_log : String
  program_id : Nat
  attach_err : Bool
  link_err : Bool
  link_status : Bool
  use_program_err : Bool
  dispatch_err : Bool
  deriving DecidableEq, Repr

/-- `struct context` of src/main.c. -/
structure Context where
  egl_major : Int
  egl_minor : Int
  gbm : Nat
  egl_disp : Nat
  egl_ctx : Nat
  node_fd : Int
  deriving DecidableEq, Repr

/-- `struct shader` of src/main.c. -/
structure Shader where
  program_id : Nat
  deriving DecidableEq, Repr

/-- Does `needle` occur as a contiguous run starting at some position of
`hay`?  Helper for `strstrFound`. -/
def foundAt (needle : List Char) : List Char → Bool
  | [] => needle.isEmpty
  | c :: rest => needle.isPrefixOf (c :: rest) || foundAt needle rest

/-- `strstr(hay, needle) != NULL`. -/
def strstrFound (hay needle : String) : Bool :=
  foundAt needle.toList hay.toList

/-- `int verbose = 0;` — the global verbosity flag, never written by any
code path of the program. -/
def verbose : Bool := false

/-- `context_init` of src/main.c: open the DRM render node, create the
GBM device, get and initialize the EGL display, check the two required
EGL extensions, choose a config, bind the GLES API, create the EGL
context and make it current, with an `assert` after each call. -/
def context_init (env : Env) (ctx : Context) : List Event × Option Context :=
  if env.open_fd ≤ 0 then
    ([Event.openDevice], none)
  else if env.gbm_dev = 0 then
    ([Event.openDevice, Event.gbmCreateDevice env.open_fd], none)
  else if env.egl_disp = 0 then
    ([Event.openDevice, Event.gbmCreateDevice env.open_fd,
      Event.eglGetPlatformDisplay env.gbm_dev], none)
  else if env.egl_init_ok = false then
    ([Event.openDevice, Event.gbmCreateDevice env.open_fd,
      Event.eglGetPlatformDisplay env.gbm_dev,
      Event.eglInitialize env.egl_disp], none)
  else if strstrFound env.egl_exts "EGL_KHR_create_context" = false then
    ([Event.openDevice, Event.gbmCreateDevice env.open_fd,
      Event.eglGetPlatformDisplay env.gbm_dev,
      Event.eglInitialize env.egl_disp,
      Event.eglQueryString env.egl_disp], none)
  else if strstrFound env.egl_exts "EGL_KHR_surfaceless_context" = false then
    ([Event.openDevice, Event.gbmCreateDevice env.open_fd,
      Event.eglGetPlatformDisplay env.gbm_dev,
      Event.eglInitialize env.egl_disp,
      Event.eglQueryString env.egl_disp], none)
  else if env.choose_config_ok = false then
    ([Event.openDevice, Event.gbmCreateDevice env.open_fd,
      Event.eglGetPlatformDisplay env.gbm_dev,
      Event.eglInitialize env.egl_disp,
      Event.eglQueryString env.egl_disp,
      Event.eglChooseConfig env.egl_disp], none)
  else if env.bind_api_ok = false then
    ([Event.openDevice, Event.gbmCreateDevice env.open_fd,
      Event.eglGetPlatformDisplay env.gbm_dev,
      Event.eglInitialize env.egl_disp,
      Event.eglQueryString env.egl_disp,
      Event.eglChooseConfig env.egl_disp,
      Event.eglBindAPI], none)
  else if env.egl_ctx = 0 then
    ([Event.openDevice, Event.gbmCreateDevice env.open_fd,
      Event.eglGetPlatformDisplay env.gbm_dev,
      Event.eglInitialize env.egl_disp,
      Event.eglQueryString env.egl_disp,
      Event.eglChooseConfig env.egl_disp,
      Event.eglBindAPI,
      Event.eglCreateContext env.egl_disp
        (if 1 ≤ env.config_count then some env.config_val else none)], none)
  else if env.make_current_ok = false then
    ([Event.openDevice, Event.gbmCreateDevice env.open_fd,
      Event.eglGetPlatformDisplay env.gbm_dev,
      Event.eglInitialize env.egl_disp,
      Event.eglQueryString env.egl_disp,
      Event.eglChooseConfig env.egl_disp,
      Event.eglBindAPI,
      Event.eglCreateContext env.egl_disp
        (if 1 ≤ env.config_count then some env.config_val else none),
      Event.eglMakeCurrent env.egl_disp env.egl_ctx], none)
  else
    ([Event.openDevice, Event.gbmCreateDevice env.open_fd,
      Event.eglGetPlatformDisplay env.gbm_dev,
      Event.eglInitialize env.egl_disp,
      Event.eglQueryString env.egl_disp,
      Event.eglChooseConfig env.egl_disp,
      Event.eglBindAPI,
      Event.eglCreateContext env.egl_disp
        (if 1 ≤ env.config_count then some env.config_val else none),
      Event.eglMakeCurrent env.egl_disp env.egl_ctx],
     some { ctx with egl_major := env.egl_major, egl_minor := env.egl_minor,
                     gbm := env.gbm_dev, egl_disp := env.egl_disp,
                     egl_ctx := env.egl_ctx, node_fd := env.open_fd })

/-- `context_print_info` of src/main.c: print the EGL version, then (if
verbose) the EGL extension string, then the four GL capability strings,
then (if verbose) the GL extension string.  The context is only read. -/
def context_print_info (v : Bool) (env : Env) (ctx : Context) : List Event × Context :=
  let tr := [Event.printEglVersion ctx.egl_major ctx.egl_minor]
  let tr := tr ++ (if v then
    [Event.eglQueryString ctx.egl_disp, Event.printEglExtensions env.egl_exts] else [])
  let tr := tr ++ [Event.printGlVendor env.gl_vendor,
                   Event.printGlRenderer env.gl_renderer,
                   Event.printGlVersion env.gl_version,
                   Event.printGlShadingLang env.gl_shading_lang]
  let tr := tr ++ (if v then [Event.printGlExtensions env.gl_exts] else [])
  (tr, ctx)

/-- `context_uninit` of src/main.c, line by line:
`eglDestroyContext(ctx->egl_disp, ctx->egl_ctx);`
`ctx->egl_disp = ctx->egl_ctx = NULL;`
`eglTerminate(ctx->egl_disp);`  (note: egl_disp was just nulled)
`ctx->egl_disp = NULL;`
`gbm_device_destroy(ctx->gbm);`
`ctx->gbm = NULL;`  — node_fd is never touched. -/
def context_uninit (ctx : Context) : List Event × Context :=
  let tr := [Event.eglDestroyContext ctx.egl_disp ctx.egl_ctx]
  let ctx := { ctx with egl_disp := 0, egl_ctx := 0 }
  let tr := tr ++ [Event.eglTerminate ctx.egl_disp]
  let ctx := { ctx with egl_disp := 0 }
  let tr := tr ++ [Event.gbmDeviceDestroy ctx.gbm]
  let ctx := { ctx with gbm := 0 }
  (tr, ctx)

/-- `shader_load` of src/main.c: read the whole file (abort if `fopen`
returned `NULL`), optionally print the source, create a compute-stage
shader, attach the source, compile it — each followed by a
`glGetError` assert — then check `GL_COMPILE_STATUS` and on failure
retrieve the info-log length, then the info log, print it and abort;
otherwise create the program, attach the shader (assert), link
(assert on `glGetError` only — `GL_LINK_STATUS` is never queried) and
delete the intermediate shader object. -/
def shader_load (v : Bool) (env : Env) (filename : String) : List Event × Option Shader :=
  match env.file_content with
  | none => ([Event.fopen filename], none)
  | some src =>
    let pre := [Event.fopen filename] ++
      (if v then [Event.printShaderSource src] else [])
    if env.create_shader_err then
      (pre ++ [Event.glCreateShader], none)
    else if env.shader_source_err then
      (pre ++ [Event.glCreateShader,
               Event.glShaderSource env.shader_id src], none)
    else if env.compile_err then
      (pre ++ [Event.glCreateShader,
               Event.glShaderSource env.shader_id src,
               Event.glCompileShader env.shader_id], none)
    else if env.compile_status = false then
      (pre ++ [Event.glCreateShader,
               Event.glShaderSource env.shader_id src,
               Event.glCompileShader env.shader_id,
               Event.glGetInfoLogLength env.shader_id,
               Event.glGetShaderInfoLog env.shader_id,
               Event.printCompileError filename env.info_log], none)
    else if env.attach_err then
      (pre ++ [Event.glCreateShader,
               Event.glShaderSource env.shader_id src,
               Event.glCompileShader env.shader_id,
               Event.glCreateProgram,
               Event.glAttachShader env.program_id env.shader_id], none)
    else if env.link_err then
      (pre ++ [Event.glCreateShader,
               Event.glShaderSource env.shader_id src,
               Event.glCompileShader env.shader_id,
               Event.glCreateProgram,
               Event.glAttachShader env.program_id env.shader_id,
               Event.glLinkProgram env.program_id], none)
    else
      (pre ++ [Event.glCreateShader,
               Event.glShaderSource env.shader_id src,
               Event.glCompileShader env.shader_id,
               Event.glCreateProgram,
               Event.glAttachShader env.program_id env.shader_id,
               Event.glLinkProgram env.program_id,
               Event.glDeleteShader env.shader_id],
       some { program_id := env.program_id })

/-- `shader_run` of src/main.c: `glUseProgram` (assert on `glGetError`),
then `glDispatchCompute(1, 1, 1)` (assert on `glGetError`). -/
def shader_run (env : Env) (shader : Shader) : List Event × Option Unit :=
  if env.use_program_err then
    ([Event.glUseProgram shader.program_id], none)
  else if env.dispatch_err then
    ([Event.glUseProgram shader.program_id, Event.glDispatchCompute 1 1 1], none)
  else
    ([Event.glUseProgram shader.program_id, Event.glDispatchCompute 1 1 1], some ())

/-- `shader_unload` of src/main.c: `glDeleteProgram`. -/
def shader_unload (shader : Shader) : List Event :=
  [Event.glDeleteProgram shader.program_id]

/-- `main` of src/main.c: context_init, context_print_info, shader_load
of "shader.cs", shader_run, shader_unload, context_uninit, return 0.
An assert failure in any step aborts the process (result `none`)
before anything later runs.  `argc`/`argp` are never inspected. -/
def main (env : Env) (ctx0 : Context) : List Event × Option Int :=
  match context_init env ctx0 with
  | (tr1, none) => (tr1, none)
  | (tr1, some ctx1) =>
    let pr := context_print_info verbose env ctx1
    match shader_load verbose env "shader.cs" with
    | (tr3, none) => (tr1 ++ pr.1 ++ tr3, none)
    | (tr3, some sh) =>
      match shader_run env sh with
      | (tr4, none) => (tr1 ++ pr.1 ++ tr3 ++ tr4, none)
      | (tr4, some _) =>
        (tr1 ++ pr.1 ++ tr3 ++ tr4 ++ shader_unload sh ++
          (context_uninit pr.2).1, some 0)

/-- The nine acquisition events of `context_init` in their documented
order, with the argument each call receives when every predecessor
succeeded. -/
def initTraceFull (env : Env) : List Event :=
  [Event.openDevice,
   Event.gbmCreateDevice env.open_fd,
   Event.eglGetPlatformDisplay env.gbm_dev,
   Event.eglInitialize env.egl_disp,
   Event.eglQueryString env.egl_disp,
   Event.eglChooseConfig env.egl_disp,
   Event.eglBindAPI,
   Event.eglCreateContext env.egl_disp
     (if 1 ≤ env.config_count then some env.config_val else none),
   Event.eglMakeCurrent env.egl_disp env.egl_ctx]

/-- How many of the nine acquisition operations `context_init` executes
in environment `env`: one more than the index of the first failing
assert-check (an abort happens immediately after the operation whose
check fails), or all nine if no check before the last fails. -/
def initSteps (env : Env) : Nat :=
  if env.open_fd ≤ 0 then 1
  else if env.gbm_dev = 0 then 2
  else if env.egl_disp = 0 then 3
  else if env.egl_init_ok = false then 4
  else if strstrFound env.egl_exts "EGL_KHR_create_context" = false then 5
  else if strstrFound env.egl_exts "EGL_KHR_surfaceless_context" = false then 5
  else if env.choose_config_ok = false then 6
  else if env.bind_api_ok = false then 7
  else if env.egl_ctx = 0 then 8
  else 9

/-- All the assert-checks of `context_init`, as the program performs
them: device open succeeded, GBM device non-null, display non-null,
display initialized, both required EGL extensions advertised, config
call succeeded, API bound, context non-null, made current. -/
def InitChecks (env : Env) : Prop :=
  0 < env.open_fd ∧ env.gbm_dev ≠ 0 ∧ env.egl_disp ≠ 0 ∧
  env.egl_init_ok = true ∧
  strstrFound env.egl_exts "EGL_KHR_create_context" = true ∧
  strstrFound env.egl_exts "EGL_KHR_surfaceless_context" = true ∧
  env.choose_config_ok = true ∧ env.bind_api_ok = true ∧
  env.egl_ctx ≠ 0 ∧ env.make_current_ok = true

instance (env : Env) : Decidable (InitChecks env) := by
  unfold InitChecks; infer_instance

/-- The context record a successful `context_init` leaves behind. -/
def initCtx (env : Env) (ctx : Context) : Context :=
  { ctx with egl_major := env.egl_major, egl_minor := env.egl_minor,
             gbm := env.gbm_dev, egl_disp := env.egl_disp,
             egl_ctx := env.egl_ctx, node_fd := env.open_fd }

/-- All the assert-checks of `shader_load`: the file opened, no GL
error after shader creation, source attachment or compilation, compile
status true, no GL error after attach or link.  (`GL_LINK_STATUS` is
absent: the program never inspects it.) -/
def LoadChecks (env : Env) : Prop :=
  env.file_content.isSome = true ∧ env.create_shader_err = false ∧
  env.shader_source_err = false ∧ env.compile_err = false ∧
  env.compile_status = true ∧ env.attach_err = false ∧ env.link_err = false

instance (env : Env) : Decidable (LoadChecks env) := by
  unfold LoadChecks; infer_instance

/-- Both assert-checks of `shader_run`. -/
def RunChecks (env : Env) : Prop :=
  env.use_program_err = false ∧ env.dispatch_err = false

instance (env : Env) : Decidable (RunChecks env) := by
  unfold RunChecks; infer_instance

/-- The events of a fully successful `shader_load` in order. -/
def loadTraceFull (v : Bool) (env : Env) (filename src : String) : List Event :=
  [Event.fopen filename] ++
  (if v then [Event.printShaderSource src] else []) ++
  [Event.glCreateShader,
   Event.glShaderSource env.shader_id src,
   Event.glCompileShader env.shader_id,
   Event.glCreateProgram,
   Event.glAttachShader env.program_id env.shader_id,
   Event.glLinkProgram env.program_id,
   Event.glDeleteShader env.shader_id]

/-- Events that `context_init` can emit. -/
def initEvent : Event → Bool
  | .openDevice | .gbmCreateDevice _ | .eglGetPlatformDisplay _
  | .eglInitialize _ | .eglQueryString _ | .eglChooseConfig _
  | .eglBindAPI | .eglCreateContext _ _ | .eglMakeCurrent _ _ => true
  | _ => false

/-- Events that `context_print_info` can emit. -/
def printInfoEvent : Event → Bool
  | .printEglVersion _ _ | .eglQueryString _ | .printEglExtensions _
  | .printGlVendor _ | .printGlRenderer _ | .printGlVersion _
  | .printGlShadingLang _ | .printGlExtensions _ => true
  | _ => false

/-- Events that `shader_load` can emit. -/
def loadEvent : Event → Bool
  | .fopen _ | .printShaderSource _ | .glCreateShader | .glShaderSource _ _
  | .glCompileShader _ | .glGetInfoLogLength _ | .glGetShaderInfoLog _
  | .printCompileError _ _ | .glCreateProgram | .glAttachShader _ _
  | .glLinkProgram _ | .glDeleteShader _ => true
  | _ => false

/-- Events that `shader_run` can emit. -/
def runEvent : Event → Bool
  | .glUseProgram _ | .glDispatchCompute _ _ _ => true
  | _ => false

/-- Events that `context_uninit` can emit. -/
def uninitEvent : Event → Bool
  | .eglDestroyContext _ _ | .eglTerminate _ | .gbmDeviceDestroy _ => true
  | _ => false

/-- The complete event trace of a fully successful run, in order:
acquisition, capability report, program load, dispatch, program
unload, teardown. -/
def fullRunTrace (env : Env) (ctx : Context) : List Event :=
  initTraceFull env ++
  (context_print_info verbose env (initCtx env ctx)).1 ++
  (shader_load verbose env "shader.cs").1 ++
  [Event.glUseProgram env.program_id, Event.glDispatchCompute 1 1 1] ++
  [Event.glDeleteProgram env.program_id] ++
  (context_uninit (initCtx env ctx)).1

/-- A fully healthy environment: every acquisition succeeds, the file
reads, the shader compiles and links, the dispatch is accepted. -/
def envOk : Env :=
  { open_fd := 3, gbm_dev := 1, egl_disp := 1, egl_init_ok := true,
    egl_major := 1, egl_minor := 5,
    egl_exts := "EGL_KHR_create_context EGL_KHR_surfaceless_context",
    choose_config_ok := true, config_count := 1, config_val := 7,
    bind_api_ok := true, egl_ctx := 9, make_current_ok := true,
    gl_vendor := "vendor", gl_renderer := "renderer",
    gl_version := "OpenGL ES 3.1",
    gl_shading_lang := "OpenGL ES GLSL ES 3.10",
    gl_exts := "GL_EXT_texture_filter_anisotropic",
    file_content := some "compute source", shader_id := 2,
    create_shader_err := false, shader_source_err := false,
    compile_err := false, compile_status := true, info_log := "",
    program_id := 4, attach_err := false, link_err := false,
    link_status := true, use_program_err := false, dispatch_err := false }

/-- An uninitialized `struct context` as `main` declares it. -/
def ctx0 : Context :=
  { egl_major := 0, egl_minor := 0, gbm := 0, egl_disp := 0,
    egl_ctx := 0, node_fd := 0 }

/-- Healthy driver, but `eglChooseConfig` succeeds matching zero
configurations. -/
def envNoConfig : Env := { envOk with config_count := 0 }

/-- Healthy driver, but the `eglChooseConfig` call itself fails. -/
def envConfigCallFail : Env := { envOk with choose_config_ok := false }

/-- Healthy driver, but the shader source is syntactically invalid: the
compile status is false and the compiler produced a diagnostic log. -/
def envBadShader : Env :=
  { envOk with compile_status := false, info_log := "0:1: syntax error" }

/-- Healthy driver, but the program link is rejected: GL_LINK_STATUS is
false while no GL error is raised (link failure raises none). -/
def envLinkRejected : Env := { envOk with link_status := false }

/-- The three outputs that only a verbose run could produce. -/
def verboseOnly : Event → Bool
  | .printEglExtensions _ | .printGlExtensions _ | .printShaderSource _ => true
  | _ => false

/-! ## Helper lemmas: characterizations of each function -/

set_option maxHeartbeats 1000000 in
lemma context_init_eq (env : Env) (ctx : Context) :
    context_init env ctx =
      ((initTraceFull env).take (initSteps env),
       if InitChecks env then some (initCtx env ctx) else none) := by
  unfold context_init initTraceFull initSteps
  by_cases h1 : env.open_fd ≤ 0
  · rw [if_neg (fun hc : InitChecks env => absurd hc.1 (by omega))]
    simp only [if_pos h1]
    rfl
  simp only [if_neg h1]
  by_cases h2 : env.gbm_dev = 0
  · rw [if_neg (fun hc : InitChecks env => hc.2.1 h2)]
    simp only [if_pos h2]
    rfl
  simp only [if_neg h2]
  by_cases h3 : env.egl_disp = 0
  · rw [if_neg (fun hc : InitChecks env => hc.2.2.1 h3)]
    simp only [if_pos h3]
    rfl
  simp only [if_neg h3]
  by_cases h4 : env.egl_init_ok = false
  · rw [if_neg (fun hc : InitChecks env => by simp [hc.2.2.2.1] at h4)]
    simp only [if_pos h4]
    rfl
  simp only [if_neg h4]
  by_cases h5 : strstrFound env.egl_exts "EGL_KHR_create_context" = false
  · rw [if_neg (fun hc : InitChecks env => by simp [hc.2.2.2.2.1] at h5)]
    simp only [if_pos h5]
    rfl
  simp only [if_neg h5]
  by_cases h6 : strstrFound env.egl_exts "EGL_KHR_surfaceless_context" = false
  · rw [if_neg (fun hc : InitChecks env => by simp [hc.2.2.2.2.2.1] at h6)]
    simp only [if_pos h6]
    rfl
  simp only [if_neg h6]
  by_cases h7 : env.choose_config_ok = false
  · rw [if_neg (fun hc : InitChecks env => by simp [hc.2.2.2.2.2.2.1] at h7)]
    simp only [if_pos h7]
    rfl
  simp only [if_neg h7]
  by_cases h8 : env.bind_api_ok = false
  · rw [if_neg (fun hc : InitChecks env => by simp [hc.2.2.2.2.2.2.2.1] at h8)]
    simp only [if_pos h8]
    rfl
  simp only [if_neg h8]
  by_cases h9 : env.egl_ctx = 0
  · rw [if_neg (fun hc : InitChecks env => hc.2.2.2.2.2.2.2.2.1 h9)]
    simp only [if_pos h9]
    rfl
  simp only [if_neg h9]
  by_cases h10 : env.make_current_ok = false
  · rw [if_neg (fun hc : InitChecks env => by simp [hc.2.2.2.2.2.2.2.2.2] at h10)]
    simp only [if_pos h10]
    rfl
  simp only [if_neg h10]
  rw [if_pos (show InitChecks env from
    ⟨by omega, h2, h3, by simpa using h4, by simpa using h5, by simpa using h6,
     by simpa using h7, by simpa using h8, h9, by simpa using h10⟩)]
  rfl

lemma context_init_trace (env : Env) (ctx : Context) :
    (context_init env ctx).1 = (initTraceFull env).take (initSteps env) := by
  rw [context_init_eq]

lemma context_init_isSome (env : Env) (ctx : Context) :
    (context_init env ctx).2.isSome = true ↔ InitChecks env := by
  rw [context_init_eq]
  by_cases h : InitChecks env <;> simp [h]

lemma context_init_some (env : Env) (ctx : Context) (h : InitChecks env) :
    (context_init env ctx).2 = some (initCtx env ctx) := by
  rw [context_init_eq]
  simp [h]

lemma shader_load_file_none (v : Bool) (env : Env) (fn : String)
    (h : env.file_content = none) :
    shader_load v env fn = ([Event.fopen fn], none) := by
  simp [shader_load, h]

lemma shader_load_compile_fail (v : Bool) (env : Env) (fn src : String)
    (h : env.file_content = some src)
    (h1 : env.create_shader_err = false) (h2 : env.shader_source_err = false)
    (h3 : env.compile_err = false) (h4 : env.compile_status = false) :
    shader_load v env fn =
      ([Event.fopen fn] ++ (if v then [Event.printShaderSource src] else []) ++
       [Event.glCreateShader,
        Event.glShaderSource env.shader_id src,
        Event.glCompileShader env.shader_id,
        Event.glGetInfoLogLength env.shader_id,
        Event.glGetShaderInfoLog env.shader_id,
        Event.printCompileError fn env.info_log], none) := by
  simp [shader_load, h, h1, h2, h3, h4]

lemma shader_load_success (v : Bool) (env : Env) (fn src : String)
    (h : env.file_content = some src)
    (h1 : env.create_shader_err = false) (h2 : env.shader_source_err = false)
    (h3 : env.compile_err = false) (h4 : env.compile_status = true)
    (h5 : env.attach_err = false) (h6 : env.link_err = false) :
    shader_load v env fn =
      (loadTraceFull v env fn src, some { program_id := env.program_id }) := by
  simp [shader_load, loadTraceFull, h, h1, h2, h3, h4, h5, h6]

lemma shader_load_isSome (v : Bool) (env : Env) (fn : String) :
    (shader_load v env fn).2.isSome = true ↔ LoadChecks env := by
  unfold LoadChecks
  rcases hf : env.file_content with _ | src
  · simp [shader_load_file_none v env fn hf, hf]
  · simp only [shader_load, hf, Option.isSome_some, true_and]
    by_cases h1 : env.create_shader_err <;>
      by_cases h2 : env.shader_source_err <;>
        by_cases h3 : env.compile_err <;>
          by_cases h4 : env.compile_status <;>
            by_cases h5 : env.attach_err <;>
              by_cases h6 : env.link_err <;>
                simp [h1, h2, h3, h4, h5, h6]

lemma shader_run_use_fail (env : Env) (s : Shader)
    (h : env.use_program_err = true) :
    shader_run env s = ([Event.glUseProgram s.program_id], none) := by
  simp [shader_run, h]

lemma shader_run_dispatch_fail (env : Env) (s : Shader)
    (h : env.use_program_err = false) (h2 : env.dispatch_err = true) :
    shader_run env s =
      ([Event.glUseProgram s.program_id, Event.glDispatchCompute 1 1 1], none) := by
  simp [shader_run, h, h2]

lemma shader_run_success (env : Env) (s : Shader)
    (h : env.use_program_err = false) (h2 : env.dispatch_err = false) :
    shader_run env s =
      ([Event.glUseProgram s.program_id, Event.glDispatchCompute 1 1 1], some ()) := by
  simp [shader_run, h, h2]

lemma shader_run_isSome (env : Env) (s : Shader) :
    (shader_run env s).2.isSome = true ↔ RunChecks env := by
  unfold RunChecks
  by_cases h1 : env.use_program_err <;> by_cases h2 : env.dispatch_err <;>
    simp [shader_run, h1, h2]

lemma context_init_events (env : Env) (ctx : Context) :
    ∀ e ∈ (context_init env ctx).1, initEvent e = true := by
  intro e he
  rw [context_init_trace] at he
  have he2 := List.mem_of_mem_take he
  revert he2
  simp [initTraceFull, initEvent]
  rintro (rfl | rfl | rfl | rfl | rfl | rfl | rfl | rfl | rfl) <;> rfl

lemma context_print_info_events (v : Bool) (env : Env) (ctx : Context) :
    ∀ e ∈ (context_print_info v env ctx).1, printInfoEvent e = true := by
  intro e he
  cases v <;> revert he <;> simp [context_print_info, printInfoEvent] <;>
    rintro (rfl | rfl | rfl | rfl | rfl | rfl | rfl | rfl) <;> rfl

lemma shader_load_events (v : Bool) (env : Env) (fn : String) :
    ∀ e ∈ (shader_load v env fn).1, loadEvent e = true := by
  unfold shader_load
  rcases hf : env.file_content with _ | src <;> simp only [hf]
  · simp [loadEvent]
  · split_ifs <;> cases v <;> simp [loadEvent]

lemma shader_run_events (env : Env) (s : Shader) :
    ∀ e ∈ (shader_run env s).1, runEvent e = true := by
  intro e he
  revert he
  unfold shader_run
  split_ifs <;> simp [runEvent] <;> rintro (rfl | rfl) <;> rfl

lemma context_uninit_events (ctx : Context) :
    ∀ e ∈ (context_uninit ctx).1, uninitEvent e = true := by
  intro e he
  revert he
  simp [context_uninit, uninitEvent]
  rintro (rfl | rfl | rfl) <;> rfl

lemma initSteps_of_checks (env : Env) (h : InitChecks env) : initSteps env = 9 := by
  obtain ⟨c1, c2, c3, c4, c5, c6, c7, c8, c9, c10⟩ := h
  unfold initSteps
  rw [if_neg (by omega), if_neg c2, if_neg c3, if_neg (by simp [c4]),
      if_neg (by simp [c5]), if_neg (by simp [c6]), if_neg (by simp [c7]),
      if_neg (by simp [c8]), if_neg c9]

lemma context_init_full (env : Env) (ctx : Context) (h : InitChecks env) :
    context_init env ctx = (initTraceFull env, some (initCtx env ctx)) := by
  rw [context_init_eq, initSteps_of_checks env h, if_pos h]
  rfl

lemma context_init_none (env : Env) (ctx : Context) (h : ¬ InitChecks env) :
    (context_init env ctx).2 = none := by
  rw [context_init_eq]
  simp [h]

lemma main_init_fail (env : Env) (ctx : Context)
    (h : (context_init env ctx).2 = none) :
    main env ctx = ((context_init env ctx).1, none) := by
  unfold main
  rcases hi : context_init env ctx with ⟨tr1, res⟩
  rw [hi] at h
  simp only at h
  subst h
  rfl

lemma main_load_fail (env : Env) (ctx : Context)
    (hi : InitChecks env)
    (h : (shader_load verbose env "shader.cs").2 = none) :
    main env ctx =
      (initTraceFull env ++
       (context_print_info verbose env (initCtx env ctx)).1 ++
       (shader_load verbose env "shader.cs").1, none) := by
  unfold main
  rw [context_init_full env ctx hi]
  dsimp only
  rcases hl : shader_load verbose env "shader.cs" with ⟨tr3, res⟩
  rw [hl] at h
  simp only at h
  subst h
  rfl

lemma main_run_fail (env : Env) (ctx : Context) (sh : Shader)
    (hi : InitChecks env)
    (hl : (shader_load verbose env "shader.cs").2 = some sh)
    (hr : (shader_run env sh).2 = none) :
    main env ctx =
      (initTraceFull env ++
       (context_print_info verbose env (initCtx env ctx)).1 ++
       (shader_load verbose env "shader.cs").1 ++
       (shader_run env sh).1, none) := by
  unfold main
  rw [context_init_full env ctx hi]
  dsimp only
  rcases hle : shader_load verbose env "shader.cs" with ⟨tr3, res⟩
  rw [hle] at hl
  simp only at hl
  subst hl
  dsimp only
  rcases hre : shader_run env sh with ⟨tr4, res2⟩
  rw [hre] at hr
  simp only at hr
  subst hr
  rfl

lemma main_success (env : Env) (ctx : Context)
    (hi : InitChecks env) (hl : LoadChecks env) (hr : RunChecks env) :
    main env ctx = (fullRunTrace env ctx, some 0) := by
  obtain ⟨src, hsrc⟩ := Option.isSome_iff_exists.mp hl.1
  have hload := shader_load_success verbose env "shader.cs" src hsrc hl.2.1 hl.2.2.1
    hl.2.2.2.1 hl.2.2.2.2.1 hl.2.2.2.2.2.1 hl.2.2.2.2.2.2
  have hrun := shader_run_success env { program_id := env.program_id } hr.1 hr.2
  unfold main fullRunTrace
  rw [context_init_full env ctx hi]
  dsimp only
  rw [hload]
  dsimp only
  rw [hrun]
  rfl

lemma shader_load_link_fail (v : Bool) (env : Env) (fn src : String)
    (h : env.file_content = some src)
    (h1 : env.create_shader_err = false) (h2 : env.shader_source_err = false)
    (h3 : env.compile_err = false) (h4 : env.compile_status = true)
    (h5 : env.attach_err = false) (h6 : env.link_err = true) :
    shader_load v env fn =
      ([Event.fopen fn] ++ (if v then [Event.printShaderSource src] else []) ++
       [Event.glCreateShader, Event.glShaderSource env.shader_id src,
        Event.glCompileShader env.shader_id, Event.glCreateProgram,
        Event.glAttachShader env.program_id env.shader_id,
        Event.glLinkProgram env.program_id], none) := by
  simp [shader_load, h, h1, h2, h3, h4, h5, h6]

lemma not_mem_of_forall_kind {P : Event → Bool} {e : Event} {l : List Event}
    (hk : ∀ x ∈ l, P x = true) (he : P e = false) : e ∉ l := by
  intro hm
  rw [hk e hm] at he
  cases he

lemma initTraceFull_events (env : Env) :
    ∀ e ∈ initTraceFull env, initEvent e = true := by
  simp [initTraceFull, initEvent]

lemma main_cases (env : Env) (ctx : Context) :
    (¬ InitChecks env ∧ main env ctx = ((context_init env ctx).1, none)) ∨
    (InitChecks env ∧ ¬ LoadChecks env ∧
      main env ctx =
        (initTraceFull env ++
         (context_print_info verbose env (initCtx env ctx)).1 ++
         (shader_load verbose env "shader.cs").1, none)) ∨
    (InitChecks env ∧ LoadChecks env ∧ ¬ RunChecks env ∧
      main env ctx =
        (initTraceFull env ++
         (context_print_info verbose env (initCtx env ctx)).1 ++
         (shader_load verbose env "shader.cs").1 ++
         (shader_run env { program_id := env.program_id }).1, none)) ∨
    (InitChecks env ∧ LoadChecks env ∧ RunChecks env ∧
      main env ctx = (fullRunTrace env ctx, some 0)) := by
  by_cases hi : InitChecks env
  · by_cases hl : LoadChecks env
    · obtain ⟨src, hsrc⟩ := Option.isSome_iff_exists.mp hl.1
      have hload := shader_load_success verbose env "shader.cs" src hsrc hl.2.1
        hl.2.2.1 hl.2.2.2.1 hl.2.2.2.2.1 hl.2.2.2.2.2.1 hl.2.2.2.2.2.2
      have hsome : (shader_load verbose env "shader.cs").2 =
          some { program_id := env.program_id } := by rw [hload]
      by_cases hr : RunChecks env
      · exact Or.inr (Or.inr (Or.inr ⟨hi, hl, hr, main_success env ctx hi hl hr⟩))
      · have hrn : (shader_run env { program_id := env.program_id }).2 = none := by
          rcases hb : (shader_run env { program_id := env.program_id }).2 with _ | u
          · rfl
          · exact absurd ((shader_run_isSome env _).mp (by rw [hb]; rfl)) hr
        exact Or.inr (Or.inr (Or.inl
          ⟨hi, hl, hr, main_run_fail env ctx _ hi hsome hrn⟩))
    · have hln : (shader_load verbose env "shader.cs").2 = none := by
        rcases hb : (shader_load verbose env "shader.cs").2 with _ | s
        · rfl
        · exact absurd ((shader_load_isSome verbose env "shader.cs").mp
            (by rw [hb]; rfl)) hl
      exact Or.inr (Or.inl ⟨hi, hl, main_load_fail env ctx hi hln⟩)
  · exact Or.inl ⟨hi, main_init_fail env ctx (context_init_none env ctx hi)⟩

lemma context_print_info_verbose_trace (env : Env) (ctx : Context) :
    (context_print_info verbose env ctx).1 =
      [Event.printEglVersion ctx.egl_major ctx.egl_minor,
       Event.printGlVendor env.gl_vendor,
       Event.printGlRenderer env.gl_renderer,
       Event.printGlVersion env.gl_version,
       Event.printGlShadingLang env.gl_shading_lang] := rfl

lemma main_events_not_verboseOnly (env : Env) (ctx : Context) :
    ∀ e ∈ (main env ctx).1, verboseOnly e = false := by
  have h1 : ∀ e ∈ initTraceFull env, verboseOnly e = false := by
    simp [initTraceFull, verboseOnly]
  have h0 : ∀ e ∈ (context_init env ctx).1, verboseOnly e = false := by
    intro e he
    rw [context_init_trace] at he
    exact h1 _ (List.mem_of_mem_take he)
  have h2 : ∀ e ∈ (context_print_info verbose env (initCtx env ctx)).1,
      verboseOnly e = false := by
    rw [context_print_info_verbose_trace]
    simp [verboseOnly]
  have h3 : ∀ e ∈ (shader_load verbose env "shader.cs").1,
      verboseOnly e = false := by
    show ∀ e ∈ (shader_load false env "shader.cs").1, verboseOnly e = false
    unfold shader_load
    rcases hf : env.file_content with _ | src <;> simp only [hf]
    · simp [verboseOnly]
    · split_ifs <;> simp_all [verboseOnly]
  have h4 : ∀ e ∈ (shader_run env { program_id := env.program_id }).1,
      verboseOnly e = false := by
    unfold shader_run
    split_ifs <;> simp [verboseOnly]
  have h5 : ∀ e ∈ (context_uninit (initCtx env ctx)).1, verboseOnly e = false := by
    simp [context_uninit, verboseOnly]
  rcases main_cases env ctx with ⟨hi, hm⟩ | ⟨hi, hl, hm⟩ | ⟨hi, hl, hr, hm⟩ |
    ⟨hi, hl, hr, hm⟩ <;> rw [hm] <;> intro e he
  · exact h0 e he
  · simp only [List.mem_append] at he
    rcases he with (he | he) | he
    · exact h1 e he
    · exact h2 e he
    · exact h3 e he
  · simp only [List.mem_append] at he
    rcases he with ((he | he) | he) | he
    · exact h1 e he
    · exact h2 e he
    · exact h3 e he
    · exact h4 e he
  · unfold fullRunTrace at he
    simp only [List.mem_append] at he
    rcases he with ((((he | he) | he) | he) | he) | he
    · exact h1 e he
    · exact h2 e he
    · exact h3 e he
    · simp only [List.mem_cons, List.not_mem_nil, or_false] at he
      rcases he with rfl | rfl <;> rfl
    · simp only [List.mem_cons, List.not_mem_nil, or_false] at he
      subst he
      rfl
    · exact h5 e he

/-! ## The claims -/

/-- Claim C1 — code bug, shown at a concrete input.  `context_uninit`
does make its three teardown calls in reverse acquisition order, and
`eglDestroyContext` receives the live display and context handles; but
the following `eglTerminate` receives display handle 0
(`EGL_NO_DISPLAY`), not the still-valid display 5, because
`ctx->egl_disp` was nulled one line earlier (and is redundantly nulled
again right after) — so the display is never actually terminated. -/
theorem context_uninit_terminate_gets_null :
    (context_uninit { egl_major := 1, egl_minor := 5, gbm := 3,
                      egl_disp := 5, egl_ctx := 9, node_fd := 4 }).1 =
      [Event.eglDestroyContext 5 9, Event.eglTerminate 0,
       Event.gbmDeviceDestroy 3] ∧
    Event.eglTerminate 5 ∉
      (context_uninit { egl_major := 1, egl_minor := 5, gbm := 3,
                        egl_disp := 5, egl_ctx := 9, node_fd := 4 }).1 := by
  decide

/-- Claim C2 — counterexample.  After `context_uninit` on a live
context, the `node_fd` field (the underlying device connection) still
holds its old positive value: it is neither cleared to 0 nor made
invalid, so it is false that every field of the state is cleared and
invalid after release. -/
theorem context_uninit_node_fd_survives :
    ¬ ((context_uninit { egl_major := 1, egl_minor := 5, gbm := 3,
                         egl_disp := 5, egl_ctx := 9, node_fd := 4 }).2.egl_ctx = 0 ∧
       (context_uninit { egl_major := 1, egl_minor := 5, gbm := 3,
                         egl_disp := 5, egl_ctx := 9, node_fd := 4 }).2.egl_disp = 0 ∧
       (context_uninit { egl_major := 1, egl_minor := 5, gbm := 3,
                         egl_disp := 5, egl_ctx := 9, node_fd := 4 }).2.gbm = 0 ∧
       (context_uninit { egl_major := 1, egl_minor := 5, gbm := 3,
                         egl_disp := 5, egl_ctx := 9, node_fd := 4 }).2.node_fd ≤ 0) := by
  decide

/-- Claim C2 — amended.  `release` clears exactly the execution
context, display, and device-abstraction fields to null; the `node_fd`
device connection and the API-version fields are left unchanged (the
connection is neither closed nor cleared). -/
theorem context_uninit_clears_only_gl_fields (ctx : Context) :
    (context_uninit ctx).2 =
      { ctx with egl_disp := 0, egl_ctx := 0, gbm := 0 } ∧
    (context_uninit ctx).2.node_fd = ctx.node_fd ∧
    (context_uninit ctx).2.egl_major = ctx.egl_major ∧
    (context_uninit ctx).2.egl_minor = ctx.egl_minor :=
  ⟨rfl, rfl, rfl, rfl⟩

/-- Claim C3 — confirmed.  `context_init` performs its nine acquisition
operations in the documented strict order: its trace is always the
prefix of the ordered nine-event list `initTraceFull` cut at the first
failing check (`initSteps`), and it succeeds exactly when all nine
checks pass — so every step failure is detected immediately after the
operation that produced it and aborts the run with no retry and no
later step executed. -/
theorem context_init_ordered_fail_fast (env : Env) (ctx : Context) :
    (context_init env ctx).1 = (initTraceFull env).take (initSteps env) ∧
    (initTraceFull env).length = 9 ∧
    ((context_init env ctx).2.isSome = true ↔ InitChecks env) :=
  ⟨context_init_trace env ctx, rfl, context_init_isSome env ctx⟩

/-- Claim C4 — counterexample.  In `envNoConfig` the `eglChooseConfig`
call succeeds but matches zero configurations; `context_init` does not
fail at the configuration step — it proceeds to `eglBindAPI`, creates
the context with an unselected (`none`) configuration, and the whole
initialization succeeds. -/
theorem context_init_accepts_zero_configs :
    envNoConfig.choose_config_ok = true ∧ envNoConfig.config_count = 0 ∧
    (context_init envNoConfig ctx0).2.isSome = true ∧
    Event.eglBindAPI ∈ (context_init envNoConfig ctx0).1 ∧
    Event.eglCreateContext 1 none ∈ (context_init envNoConfig ctx0).1 := by
  decide

/-- Claim C4 — amended.  The configuration-selection step aborts the
run exactly when the `eglChooseConfig` call itself reports failure (in
which case nothing after the config step runs); when the call succeeds
with zero matching configurations, initialization continues to API
binding and creates the context with an unselected configuration. -/
theorem context_init_config_selection (env : Env) (ctx : Context) :
    (env.choose_config_ok = false →
      0 < env.open_fd → env.gbm_dev ≠ 0 → env.egl_disp ≠ 0 →
      env.egl_init_ok = true →
      strstrFound env.egl_exts "EGL_KHR_create_context" = true →
      strstrFound env.egl_exts "EGL_KHR_surfaceless_context" = true →
      (context_init env ctx).2 = none ∧
      (context_init env ctx).1 = (initTraceFull env).take 6) ∧
    (InitChecks env → env.config_count ≤ 0 →
      (context_init env ctx).2.isSome = true ∧
      Event.eglBindAPI ∈ (context_init env ctx).1 ∧
      Event.eglCreateContext env.egl_disp none ∈ (context_init env ctx).1) := by
  constructor
  · intro hc h1 h2 h3 h4 h5 h6
    have hnc : ¬ InitChecks env := fun hic => by
      simp [hic.2.2.2.2.2.2.1] at hc
    have hsteps : initSteps env = 6 := by
      unfold initSteps
      rw [if_neg (by omega), if_neg h2, if_neg h3, if_neg (by simp [h4]),
          if_neg (by simp [h5]), if_neg (by simp [h6]), if_pos hc]
    exact ⟨context_init_none env ctx hnc, by rw [context_init_trace, hsteps]⟩
  · intro hic hz
    have hcfg : (if 1 ≤ env.config_count then some env.config_val else none) =
        (none : Option Nat) := if_neg (by omega)
    refine ⟨(context_init_isSome env ctx).mpr hic, ?_, ?_⟩
    · rw [context_init_full env ctx hic]
      simp [initTraceFull]
    · rw [context_init_full env ctx hic]
      simp [initTraceFull, hcfg]

/-- Witness for the amended C4, at `envConfigCallFail` (the call fails:
abort right at the sixth step) and `envNoConfig` (zero matches: the
run proceeds past the config step and succeeds). -/
theorem context_init_config_selection_witness :
    ((context_init envConfigCallFail ctx0).2 = none ∧
     (context_init envConfigCallFail ctx0).1 =
       (initTraceFull envConfigCallFail).take 6) ∧
    ((context_init envNoConfig ctx0).2.isSome = true ∧
     Event.eglBindAPI ∈ (context_init envNoConfig ctx0).1 ∧
     Event.eglCreateContext 1 none ∈ (context_init envNoConfig ctx0).1) :=
  ⟨(context_init_config_selection envConfigCallFail ctx0).1 rfl (by decide)
     (by decide) (by decide) (by decide) (by decide) (by decide),
   (context_init_config_selection envNoConfig ctx0).2 (by decide) (by decide)⟩

/-- Claim C5 — confirmed.  When the compute source is syntactically
invalid (compile status false, no GL error up to the compile call),
`shader_load` queries the info-log length first, then the info log,
prints the compiler's log text verbatim in its diagnostic, yields no
program object (no `glCreateProgram` is ever reached), and the whole
process aborts with no dispatch ever issued. -/
theorem shader_load_compile_error_behavior (env : Env) (fn src : String) (ctx : Context)
    (hf : env.file_content = some src)
    (h1 : env.create_shader_err = false) (h2 : env.shader_source_err = false)
    (h3 : env.compile_err = false) (h4 : env.compile_status = false)
    (hlog : env.info_log ≠ "") :
    (shader_load verbose env fn).2 = none ∧
    (shader_load verbose env fn).1 =
      [Event.fopen fn, Event.glCreateShader,
       Event.glShaderSource env.shader_id src,
       Event.glCompileShader env.shader_id,
       Event.glGetInfoLogLength env.shader_id,
       Event.glGetShaderInfoLog env.shader_id,
       Event.printCompileError fn env.info_log] ∧
    env.info_log ≠ "" ∧
    Event.glCreateProgram ∉ (shader_load verbose env fn).1 ∧
    (main env ctx).2 = none ∧
    (∀ x y z, Event.glDispatchCompute x y z ∉ (main env ctx).1) := by
  have hload := shader_load_compile_fail verbose env fn src hf h1 h2 h3 h4
  have hload2 := shader_load_compile_fail verbose env "shader.cs" src hf h1 h2 h3 h4
  have hnone : (shader_load verbose env "shader.cs").2 = none := by rw [hload2]
  have htr : (shader_load verbose env fn).1 =
      [Event.fopen fn, Event.glCreateShader,
       Event.glShaderSource env.shader_id src,
       Event.glCompileShader env.shader_id,
       Event.glGetInfoLogLength env.shader_id,
       Event.glGetShaderInfoLog env.shader_id,
       Event.printCompileError fn env.info_log] := by
    rw [hload]
    rfl
  refine ⟨by rw [hload], htr, hlog, ?_, ?_, ?_⟩
  · rw [htr]
    simp
  · by_cases hic : InitChecks env
    · rw [main_load_fail env ctx hic hnone]
    · rw [main_init_fail env ctx (context_init_none env ctx hic)]
  · intro x y z
    by_cases hic : InitChecks env
    · rw [main_load_fail env ctx hic hnone]
      intro hm
      simp only [List.mem_append] at hm
      rcases hm with (hm | hm) | hm
      · simp [initTraceFull] at hm
      · have := context_print_info_events verbose env (initCtx env ctx) _ hm
        simp [printInfoEvent] at this
      · have := shader_load_events verbose env "shader.cs" _ hm
        simp [loadEvent] at this
    · rw [main_init_fail env ctx (context_init_none env ctx hic)]
      intro hm
      have := context_init_events env ctx _ hm
      simp [initEvent] at this

/-- Witness for C5 at `envBadShader`. -/
theorem shader_load_compile_error_witness :
    (shader_load verbose envBadShader "shader.cs").2 = none ∧
    (shader_load verbose envBadShader "shader.cs").1 =
      [Event.fopen "shader.cs", Event.glCreateShader,
       Event.glShaderSource 2 "compute source",
       Event.glCompileShader 2,
       Event.glGetInfoLogLength 2,
       Event.glGetShaderInfoLog 2,
       Event.printCompileError "shader.cs" "0:1: syntax error"] ∧
    envBadShader.info_log ≠ "" ∧
    Event.glCreateProgram ∉ (shader_load verbose envBadShader "shader.cs").1 ∧
    (main envBadShader ctx0).2 = none ∧
    Event.glDispatchCompute 1 1 1 ∉ (main envBadShader ctx0).1 := by
  have h := shader_load_compile_error_behavior envBadShader "shader.cs"
    "compute source" ctx0 rfl rfl rfl rfl rfl (by decide)
  exact ⟨h.1, h.2.1, h.2.2.1, h.2.2.2.1, h.2.2.2.2.1, h.2.2.2.2.2 1 1 1⟩

/-- Claim C6 — counterexample.  The driver rejects the link
(`GL_LINK_STATUS` false) while raising no GL error, which is exactly
how a link rejection presents itself; `shader_load` never queries the
link status, so it still reports the program as successfully loaded. -/
theorem shader_load_ignores_link_status :
    envLinkRejected.link_status = false ∧
    (shader_load verbose envLinkRejected "shader.cs").2 =
      some { program_id := 4 } := by
  decide

/-- Claim C6 — amended.  After `glLinkProgram`, `shader_load` aborts
exactly when `glGetError` reports an error there; the driver's
`GL_LINK_STATUS` value plays no role at all (flipping it changes
nothing), so a link rejected without a GL error still yields a load
reported as successful. -/
theorem shader_load_link_error_check (env : Env) (fn src : String)
    (hf : env.file_content = some src)
    (h1 : env.create_shader_err = false) (h2 : env.shader_source_err = false)
    (h3 : env.compile_err = false) (h4 : env.compile_status = true)
    (h5 : env.attach_err = false) :
    ((shader_load verbose env fn).2 = none ↔ env.link_err = true) ∧
    (∀ b : Bool, shader_load verbose { env with link_status := b } fn =
       shader_load verbose env fn) := by
  constructor
  · constructor
    · intro hn
      by_contra hne
      have h6 : env.link_err = false := by
        revert hne; cases env.link_err <;> simp
      rw [shader_load_success verbose env fn src hf h1 h2 h3 h4 h5 h6] at hn
      simp at hn
    · intro h6
      rw [shader_load_link_fail verbose env fn src hf h1 h2 h3 h4 h5 h6]
  · intro b
    cases env
    rfl

/-- Witness for the amended C6 at `envOk`. -/
theorem shader_load_link_error_check_witness :
    ((shader_load verbose envOk "shader.cs").2 = none ↔ envOk.link_err = true) ∧
    (shader_load verbose { envOk with link_status := false } "shader.cs" =
       shader_load verbose envOk "shader.cs") :=
  ⟨(shader_load_link_error_check envOk "shader.cs" "compute source"
      rfl rfl rfl rfl rfl rfl).1,
   (shader_load_link_error_check envOk "shader.cs" "compute source"
      rfl rfl rfl rfl rfl rfl).2 false⟩

/-- Claim C7 — confirmed.  Called on the context produced by a
successful initialization, `context_print_info` leaves every field of
the context unchanged (it has no mutation at all), and its effect is
exactly to emit the API version pair, the vendor, renderer,
driver-version and shading-language-version strings, plus — only when
verbose — the raw extension strings of the display layer and of the
GPU layer. -/
theorem context_print_info_read_only (v : Bool) (env : Env) (ctx0a ctx : Context)
    (h : (context_init env ctx0a).2 = some ctx) :
    (context_print_info v env ctx).2 = ctx ∧
    (context_print_info v env ctx).1 =
      [Event.printEglVersion ctx.egl_major ctx.egl_minor] ++
      (if v then [Event.eglQueryString ctx.egl_disp,
                  Event.printEglExtensions env.egl_exts] else []) ++
      [Event.printGlVendor env.gl_vendor,
       Event.printGlRenderer env.gl_renderer,
       Event.printGlVersion env.gl_version,
       Event.printGlShadingLang env.gl_shading_lang] ++
      (if v then [Event.printGlExtensions env.gl_exts] else []) :=
  ⟨rfl, by cases v <;> rfl⟩

/-- Witness for C7 at `envOk` (initialization succeeds), verbose and
non-verbose both instantiated through the quantified flag. -/
theorem context_print_info_read_only_witness :
    (context_print_info true envOk (initCtx envOk ctx0)).2 = initCtx envOk ctx0 ∧
    (context_print_info true envOk (initCtx envOk ctx0)).1 =
      [Event.printEglVersion (initCtx envOk ctx0).egl_major
         (initCtx envOk ctx0).egl_minor] ++
      (if true then [Event.eglQueryString (initCtx envOk ctx0).egl_disp,
                     Event.printEglExtensions envOk.egl_exts] else []) ++
      [Event.printGlVendor envOk.gl_vendor,
       Event.printGlRenderer envOk.gl_renderer,
       Event.printGlVersion envOk.gl_version,
       Event.printGlShadingLang envOk.gl_shading_lang] ++
      (if true then [Event.printGlExtensions envOk.gl_exts] else []) :=
  context_print_info_read_only true envOk ctx0 (initCtx envOk ctx0) (by decide)

/-- Claim C8 — confirmed.  Given a program object returned by a
successful `shader_load` and a healthy `glUseProgram`, `shader_run`
binds exactly that program and dispatches a single compute invocation
with the fixed work-group count (1,1,1), and it aborts if and only if
the GPU reports an error state immediately after the dispatch. -/
theorem shader_run_binds_and_dispatches (env : Env) (fn : String) (s : Shader)
    (hload : (shader_load verbose env fn).2 = some s)
    (h : env.use_program_err = false) :
    (shader_run env s).1 =
      [Event.glUseProgram s.program_id, Event.glDispatchCompute 1 1 1] ∧
    ((shader_run env s).2 = none ↔ env.dispatch_err = true) := by
  constructor
  · unfold shader_run
    rw [if_neg (by simp [h])]
    split_ifs <;> rfl
  · by_cases hd : env.dispatch_err
    · rw [shader_run_dispatch_fail env s h hd]
      simp [hd]
    · have hd2 : env.dispatch_err = false := by simpa using hd
      rw [shader_run_success env s h hd2]
      simp [hd2]

/-- Witness for C8 at `envOk`, whose load yields program id 4. -/
theorem shader_run_binds_and_dispatches_witness :
    (shader_run envOk { program_id := 4 }).1 =
      [Event.glUseProgram 4, Event.glDispatchCompute 1 1 1] ∧
    ((shader_run envOk { program_id := 4 }).2 = none ↔
       envOk.dispatch_err = true) :=
  shader_run_binds_and_dispatches envOk "shader.cs" { program_id := 4 }
    (by decide) rfl

/-- Claim C9 — confirmed.  `main` returns exit status zero exactly when
every check of the init, load, and run stages passes, in which case its
trace is precisely the full ordered sequence
init → describe → load → run → unload → release (`fullRunTrace`); and
any failure aborts the process before any later step: a failing run
never makes a single teardown call (`eglDestroyContext`,
`eglTerminate`, `gbm_device_destroy`) and never unloads the program, a
failed init leaves exactly the init trace, and a failed load means no
dispatch was ever issued.  The exit result is always `some 0` or an
abort. -/
theorem main_exit_zero_iff_full_sequence (env : Env) (ctx : Context) :
    ((main env ctx).2 = some 0 ↔
       InitChecks env ∧ LoadChecks env ∧ RunChecks env) ∧
    ((main env ctx).2 = some 0 → (main env ctx).1 = fullRunTrace env ctx) ∧
    ((main env ctx).2 = none →
      (∀ d c, Event.eglDestroyContext d c ∉ (main env ctx).1) ∧
      (∀ d, Event.eglTerminate d ∉ (main env ctx).1) ∧
      (∀ g, Event.gbmDeviceDestroy g ∉ (main env ctx).1) ∧
      (∀ p, Event.glDeleteProgram p ∉ (main env ctx).1)) ∧
    ((context_init env ctx).2 = none →
      (main env ctx).1 = (context_init env ctx).1) ∧
    ((shader_load verbose env "shader.cs").2 = none →
      ∀ x y z, Event.glDispatchCompute x y z ∉ (main env ctx).1) ∧
    ((main env ctx).2 = some 0 ∨ (main env ctx).2 = none) := by
  have hnodestr : ∀ tr : List Event,
      (∀ x ∈ tr, initEvent x = true ∨ printInfoEvent x = true ∨
        loadEvent x = true ∨ runEvent x = true) →
      (∀ d c, Event.eglDestroyContext d c ∉ tr) ∧
      (∀ d, Event.eglTerminate d ∉ tr) ∧
      (∀ g, Event.gbmDeviceDestroy g ∉ tr) ∧
      (∀ p, Event.glDeleteProgram p ∉ tr) := by
    intro tr htr
    refine ⟨fun d c hm => ?_, fun d hm => ?_, fun g hm => ?_, fun p hm => ?_⟩ <;>
      rcases htr _ hm with h | h | h | h <;>
        simp [initEvent, printInfoEvent, loadEvent, runEvent] at h
  have hkinds1 : ∀ x ∈ (context_init env ctx).1,
      initEvent x = true ∨ printInfoEvent x = true ∨
      loadEvent x = true ∨ runEvent x = true :=
    fun x hx => Or.inl (context_init_events env ctx x hx)
  have hkinds2 : ∀ x ∈ initTraceFull env ++
      (context_print_info verbose env (initCtx env ctx)).1 ++
      (shader_load verbose env "shader.cs").1,
      initEvent x = true ∨ printInfoEvent x = true ∨
      loadEvent x = true ∨ runEvent x = true := by
    intro x hx
    simp only [List.mem_append] at hx
    rcases hx with (hx | hx) | hx
    · exact Or.inl (initTraceFull_events env x hx)
    · exact Or.inr (Or.inl (context_print_info_events verbose env _ x hx))
    · exact Or.inr (Or.inr (Or.inl (shader_load_events verbose env _ x hx)))
  have hnodisp : ∀ tr : List Event,
      (∀ x ∈ tr, initEvent x = true ∨ printInfoEvent x = true ∨
        loadEvent x = true) →
      ∀ x y z, Event.glDispatchCompute x y z ∉ tr := by
    intro tr htr x y z hm2
    rcases htr _ hm2 with h | h | h <;>
      simp [initEvent, printInfoEvent, loadEvent] at h
  have hkinds2three : ∀ x ∈ initTraceFull env ++
      (context_print_info verbose env (initCtx env ctx)).1 ++
      (shader_load verbose env "shader.cs").1,
      initEvent x = true ∨ printInfoEvent x = true ∨ loadEvent x = true := by
    intro x hx
    simp only [List.mem_append] at hx
    rcases hx with (hx | hx) | hx
    · exact Or.inl (initTraceFull_events env x hx)
    · exact Or.inr (Or.inl (context_print_info_events verbose env _ x hx))
    · exact Or.inr (Or.inr (shader_load_events verbose env _ x hx))
  have hkinds3 : ∀ x ∈ initTraceFull env ++
      (context_print_info verbose env (initCtx env ctx)).1 ++
      (shader_load verbose env "shader.cs").1 ++
      (shader_run env { program_id := env.program_id }).1,
      initEvent x = true ∨ printInfoEvent x = true ∨
      loadEvent x = true ∨ runEvent x = true := by
    intro x hx
    simp only [List.mem_append] at hx
    rcases hx with ((hx | hx) | hx) | hx
    · exact Or.inl (initTraceFull_events env x hx)
    · exact Or.inr (Or.inl (context_print_info_events verbose env _ x hx))
    · exact Or.inr (Or.inr (Or.inl (shader_load_events verbose env _ x hx)))
    · exact Or.inr (Or.inr (Or.inr (shader_run_events env _ x hx)))
  rcases main_cases env ctx with ⟨hi, hm⟩ | ⟨hi, hl, hm⟩ | ⟨hi, hl, hr, hm⟩ |
    ⟨hi, hl, hr, hm⟩ <;> rw [hm]
  · refine ⟨by simp [hi], by simp, fun _ => hnodestr _ hkinds1, fun _ => rfl,
      fun _ x y z => not_mem_of_forall_kind (context_init_events env ctx) rfl,
      Or.inr rfl⟩
  · refine ⟨by simp [hl], by simp, fun _ => hnodestr _ hkinds2, ?_, ?_, Or.inr rfl⟩
    · intro hcn
      rw [context_init_full env ctx hi] at hcn
      simp at hcn
    · intro _ x y z
      exact hnodisp _ hkinds2three x y z
  · refine ⟨by simp [hr], by simp, fun _ => hnodestr _ hkinds3, ?_, ?_, Or.inr rfl⟩
    · intro hcn
      rw [context_init_full env ctx hi] at hcn
      simp at hcn
    · intro hln
      obtain ⟨src, hsrc⟩ := Option.isSome_iff_exists.mp hl.1
      rw [shader_load_success verbose env "shader.cs" src hsrc hl.2.1 hl.2.2.1
        hl.2.2.2.1 hl.2.2.2.2.1 hl.2.2.2.2.2.1 hl.2.2.2.2.2.2] at hln
      simp at hln
  · refine ⟨by simp [hi, hl, hr], by simp, by simp, ?_, ?_, Or.inl rfl⟩
    · intro hcn
      rw [context_init_full env ctx hi] at hcn
      simp at hcn
    · intro hln
      obtain ⟨src, hsrc⟩ := Option.isSome_iff_exists.mp hl.1
      rw [shader_load_success verbose env "shader.cs" src hsrc hl.2.1 hl.2.2.1
        hl.2.2.2.1 hl.2.2.2.2.1 hl.2.2.2.2.2.1 hl.2.2.2.2.2.2] at hln
      simp at hln

/-- Claim C10 — confirmed.  The verbosity flag is the constant zero:
no code path writes it and `main` never inspects its command-line
arguments, so on every possible run none of the verbose-only outputs —
the display-layer extension string, the GPU-layer extension string,
and the shader source text — is ever emitted. -/
theorem verbose_outputs_never_emitted (env : Env) (ctx : Context) :
    verbose = false ∧
    (∀ s, Event.printEglExtensions s ∉ (main env ctx).1) ∧
    (∀ s, Event.printGlExtensions s ∉ (main env ctx).1) ∧
    (∀ s, Event.printShaderSource s ∉ (main env ctx).1) := by
  refine ⟨rfl, fun s hm => ?_, fun s hm => ?_, fun s hm => ?_⟩ <;>
    (have hv := main_events_not_verboseOnly env ctx _ hm
     simp [verboseOnly] at hv)

/-- Witness for the amended C2 at a concrete live context. -/
theorem context_uninit_clears_only_gl_fields_witness :
    (context_uninit { egl_major := 1, egl_minor := 5, gbm := 3,
                      egl_disp := 5, egl_ctx := 9, node_fd := 4 }).2 =
      { egl_major := 1, egl_minor := 5, gbm := 0, egl_disp := 0,
        egl_ctx := 0, node_fd := 4 } ∧
    (context_uninit { egl_major := 1, egl_minor := 5, gbm := 3,
                      egl_disp := 5, egl_ctx := 9, node_fd := 4 }).2.node_fd = 4 ∧
    (context_uninit { egl_major := 1, egl_minor := 5, gbm := 3,
                      egl_disp := 5, egl_ctx := 9, node_fd := 4 }).2.egl_major = 1 ∧
    (context_uninit { egl_major := 1, egl_minor := 5, gbm := 3,
                      egl_disp := 5, egl_ctx := 9, node_fd := 4 }).2.egl_minor = 5 :=
  context_uninit_clears_only_gl_fields
    { egl_major := 1, egl_minor := 5, gbm := 3,
      egl_disp := 5, egl_ctx := 9, node_fd := 4 }

/-- Witness for C3 at the healthy environment `envOk`. -/
theorem context_init_ordered_fail_fast_witness :
    (context_init envOk ctx0).1 = (initTraceFull envOk).take (initSteps envOk) ∧
    (initTraceFull envOk).length = 9 ∧
    ((context_init envOk ctx0).2.isSome = true ↔ InitChecks envOk) :=
  context_init_ordered_fail_fast envOk ctx0

/-- Witness for C9 at the healthy environment `envOk`. -/
theorem main_exit_zero_iff_full_sequence_witness :
    ((main envOk ctx0).2 = some 0 ↔
       InitChecks envOk ∧ LoadChecks envOk ∧ RunChecks envOk) ∧
    ((main envOk ctx0).2 = some 0 → (main envOk ctx0).1 = fullRunTrace envOk ctx0) ∧
    ((main envOk ctx0).2 = none →
      (∀ d c, Event.eglDestroyContext d c ∉ (main envOk ctx0).1) ∧
      (∀ d, Event.eglTerminate d ∉ (main envOk ctx0).1) ∧
      (∀ g, Event.gbmDeviceDestroy g ∉ (main envOk ctx0).1) ∧
      (∀ p, Event.glDeleteProgram p ∉ (main envOk ctx0).1)) ∧
    ((context_init envOk ctx0).2 = none →
      (main envOk ctx0).1 = (context_init envOk ctx0).1) ∧
    ((shader_load verbose envOk "shader.cs").2 = none →
      ∀ x y z, Event.glDispatchCompute x y z ∉ (main envOk ctx0).1) ∧
    ((main envOk ctx0).2 = some 0 ∨ (main envOk ctx0).2 = none) :=
  main_exit_zero_iff_full_sequence envOk ctx0

/-- Witness for C10 at the healthy environment `envOk`. -/
theorem verbose_outputs_never_emitted_witness :
    verbose = false ∧
    (∀ s, Event.printEglExtensions s ∉ (main envOk ctx0).1) ∧
    (∀ s, Event.printGlExtensions s ∉ (main envOk ctx0).1) ∧
    (∀ s, Event.printShaderSource s ∉ (main envOk ctx0).1) :=
  verbose_outputs_never_emitted envOk ctx0

end SimpleCS
